import Mathlib

/-!
# rcs380: wire protocol of the RC-S380 reader driver

A shallow embedding of `rcs380.go` and of the session run by `cmd/read/main.go`.

* Bytes are natural numbers; every arithmetic step on a `byte` is reduced modulo 256 and the
  conversion `uint16(n)` is reduced modulo 65536, as the Go operations do.
* A `[]byte` is a `List Nat`.
* A `rune` (Go `int32`) is an `Int`; `'A' = 65`, `'B' = 66`, `'F' = 70`.
* The USB endpoints (`gousb`) are outside the repository: they are a parameter, a `Transport`
  acting on a state of an arbitrary type. Every call of an endpoint is recorded in the log of
  the device, so that the order and number of transport operations can be stated.
-/

namespace Rcs380

/-! ## Command catalog (rcs380.go, lines 16-32) -/

/-- Go `rune`. -/
abbrev Rune := Int

/-- Rune literal `'A'`. -/
def runeA : Rune := 65

/-- Rune literal `'B'`. -/
def runeB : Rune := 66

/-- Rune literal `'F'`. -/
def runeF : Rune := 70

/-- A Go `map[rune][]byte` literal, as its list of key/value pairs (keys are distinct). -/
abbrev ByteMap := List (Rune × List Nat)

/-- Go map lookup `v, ok := m[t]`: `some v` when `ok`, `none` otherwise. -/
def ByteMap.get (m : ByteMap) (t : Rune) : Option (List Nat) :=
  List.lookup t m

/-- Source: `var insetRFMap`. -/
def insetRFMap : ByteMap :=
  [ (runeF, [0x00, 0x01, 0x01, 0x0f, 0x01]),
    (runeA, [0x00, 0x02, 0x03, 0x0f, 0x03]),
    (runeB, [0x00, 0x03, 0x07, 0x0f, 0x07]) ]

/-- Source: `var insetProtocol2Map`. -/
def insetProtocol2Map : ByteMap :=
  [ (runeF, [0x02, 0x00, 0x18]),
    (runeA, [0x02, 0x00, 0x06, 0x01, 0x00, 0x02, 0x00, 0x05, 0x01, 0x07, 0x07]),
    (runeB, [0x02, 0x00, 0x14, 0x09, 0x01, 0x0a, 0x01, 0x0b, 0x01, 0x0c, 0x01]) ]

/-- Source: `var requestMap`. -/
def requestMap : ByteMap :=
  [ (runeF, [0x04, 0x6e, 0x00, 0x06, 0x00, 0xff, 0xff, 0x01, 0x00]),
    (runeA, [0x04, 0x6e, 0x00, 0x26]),
    (runeB, [0x04, 0x6e, 0x00, 0x05, 0x00, 0x10]) ]

/-! ## Frame codec (rcs380.go, lines 81-108) -/

/-- Source: `var packetHeader`. -/
def packetHeader : List Nat := [0x00, 0x00, 0xff, 0xff, 0xff]

/-- Source: `func checksum`. The accumulator `sum` is a `byte`, so each `sum += b` wraps
modulo 256; `^sum` on a byte is `255 - sum`, and the final `+ 1` wraps as well. -/
def checksum (data : List Nat) : Nat :=
  let sum := data.foldl (fun sum b => (sum + b) % 256) 0
  ((255 - sum) + 1) % 256

/-- Go `binary.LittleEndian.PutUint16(lenbuf, v)` on a fresh 2-byte buffer:
`lenbuf[0] = byte(v)`, `lenbuf[1] = byte(v >> 8)`. -/
def putUint16 (v : Nat) : List Nat :=
  [v % 256, (v / 256) % 256]

/-- Go `binary.LittleEndian.Uint16(b)`: `b[0] | b[1] << 8`. -/
def uint16LE (b0 b1 : Nat) : Nat :=
  b0 + 256 * b1

/-- The buffer `b.Bytes()` that `Device.Write` builds (lines 94-108) before calling the
transport. `uint16(n)` truncates `n` modulo 65536. -/
def writeBuffer (command : List Nat) : List Nat :=
  let command := [0xd6] ++ command
  let n := command.length
  let lenbuf := putUint16 (n % 65536)
  let ncsum := checksum lenbuf
  let csum := checksum command
  packetHeader ++ lenbuf ++ [ncsum] ++ command ++ [csum] ++ [0x00]

/-! ## Transport and device (rcs380.go, lines 34-38 and 110-131) -/

/-- The two bulk endpoints, acting on a transport state `σ` and failing with errors of
type `ε`.

* `outWrite s bs` is `d.out.Write(bs)`: the new state, the count and the error (`none` is
  Go's `nil`).
* `inRead s k` is `d.in.Read(buf)` with `len(buf) = k`: the new state, the bytes the
  endpoint delivers and the error. The count `n` the call returns is the number of
  delivered bytes that fit the buffer.
* `inResidue s k` is what that same call leaves in `buf` behind the `n` delivered bytes:
  the endpoint receives the whole buffer and may write to all of it, whatever count it
  returns. -/
structure Transport (σ ε : Type) where
  outWrite : σ → List Nat → σ × Nat × Option ε
  inRead : σ → Nat → σ × List Nat × Option ε
  inResidue : σ → Nat → List Nat

/-- One call of a transport endpoint: a write with the bytes handed over, or a read with
the bytes it returned (`buf[:n]`). -/
inductive Event where
  | write (bs : List Nat)
  | read (bs : List Nat)
  deriving DecidableEq, Repr

/-- Errors returned by the driver: a transport error passed on as it is, or the
`fmt.Errorf("undefined NFC type: %c", t)` of the catalog operations. -/
inductive Error (ε : Type) where
  | transport (e : ε)
  | undefinedNFCType (t : Rune)
  deriving DecidableEq, Repr

/-- Source: `type Device`. The endpoints are the `Transport` passed to every operation;
`maxPacketSize` is `d.in.Desc.MaxPacketSize`, `st` the state of the transport and `log` the
record of all endpoint calls made so far. -/
structure Device (σ : Type) where
  maxPacketSize : Nat
  st : σ
  log : List Event

/-- A Go slice with offset 0: its backing array (whose length is the capacity) and its
length. -/
structure Slice where
  arr : List Nat
  len : Nat
  deriving DecidableEq, Repr

/-- The elements of a slice. -/
def Slice.bytes (s : Slice) : List Nat := s.arr.take s.len

/-- The call `d.out.Write(bs)` together with its record in the log. -/
def Device.outWrite {σ ε : Type} (T : Transport σ ε) (d : Device σ) (bs : List Nat) :
    Device σ × Option ε :=
  let r := T.outWrite d.st bs
  ({ d with st := r.1, log := d.log ++ [Event.write bs] }, r.2.2)

/-- The `k` bytes of `buf` after `d.in.Read(buf)`: the delivered bytes, then what the
endpoint left behind them, then the zeros of `make([]byte, k)` where it wrote nothing. -/
def fillBuffer (k : Nat) (recv residue : List Nat) : List Nat :=
  (recv ++ residue ++ List.replicate k 0).take k

/-- Source: `func (d *Device) Read`. `buf` is a zeroed buffer of `MaxPacketSize` bytes
handed whole to the endpoint, which delivers `n` bytes at its head and may leave other
bytes behind them; the result is `buf[:n]`, backed by all of `buf`, with the error. -/
def Device.Read {σ ε : Type} (T : Transport σ ε) (d : Device σ) :
    Device σ × Slice × Option ε :=
  let r := T.inRead d.st d.maxPacketSize
  let recv := r.2.1.take d.maxPacketSize
  let n := recv.length
  let buf := fillBuffer d.maxPacketSize recv (T.inResidue d.st d.maxPacketSize)
  ({ d with st := r.1, log := d.log ++ [Event.read recv] }, ⟨buf, n⟩, r.2.2)

/-- Source: `func (d *Device) Write`. -/
def Device.Write {σ ε : Type} (T : Transport σ ε) (d : Device σ) (command : List Nat) :
    Device σ × Option (Error ε) :=
  match Device.outWrite T d (writeBuffer command) with
  | (d1, some err) => (d1, some (Error.transport err))
  | (d1, none) =>
    -- receive ack/nck
    match Device.Read T d1 with
    | (d2, _, some err) => (d2, some (Error.transport err))
    | (d2, _, none) => (d2, none)

/-- Source: `func (d *Device) PacketInit`. -/
def Device.PacketInit {σ ε : Type} (T : Transport σ ε) (d : Device σ) :
    Device σ × Option (Error ε) :=
  match Device.outWrite T d [0x00, 0x00, 0xff, 0x00, 0xff, 0x00] with
  | (d1, err) => (d1, err.map Error.transport)

/-- Source: `func (d *Device) PacketSetCommandType`. -/
def Device.PacketSetCommandType {σ ε : Type} (T : Transport σ ε) (d : Device σ) :
    Device σ × Option (Error ε) :=
  let cmd := [0x2a, 0x01]
  Device.Write T d cmd

/-- Source: `func (d *Device) PacketSwitchRF`. -/
def Device.PacketSwitchRF {σ ε : Type} (T : Transport σ ε) (d : Device σ) :
    Device σ × Option (Error ε) :=
  let cmd := [0x06, 0x00]
  Device.Write T d cmd

/-- Source: `func (d *Device) PacketInsetRF`. -/
def Device.PacketInsetRF {σ ε : Type} (T : Transport σ ε) (d : Device σ) (t : Rune) :
    Device σ × Option (Error ε) :=
  match insetRFMap.get t with
  | none => (d, some (Error.undefinedNFCType t))
  | some cmd => Device.Write T d cmd

/-- The payload of `PacketInsetProtocol1`. -/
def protocol1Cmd : List Nat :=
  [0x02, 0x00, 0x18, 0x01, 0x01, 0x02, 0x01, 0x03, 0x00, 0x04, 0x00, 0x05, 0x00, 0x06, 0x00,
   0x07, 0x08, 0x08, 0x00, 0x09, 0x00, 0x0a, 0x00, 0x0b, 0x00, 0x0c, 0x00, 0x0e, 0x04, 0x0f,
   0x00, 0x10, 0x00, 0x11, 0x00, 0x12, 0x00, 0x13, 0x06]

/-- Source: `func (d *Device) PacketInsetProtocol1`. -/
def Device.PacketInsetProtocol1 {σ ε : Type} (T : Transport σ ε) (d : Device σ) :
    Device σ × Option (Error ε) :=
  let cmd := protocol1Cmd
  Device.Write T d cmd

/-- Source: `func (d *Device) PacketInsetProtocol2`. -/
def Device.PacketInsetProtocol2 {σ ε : Type} (T : Transport σ ε) (d : Device σ) (t : Rune) :
    Device σ × Option (Error ε) :=
  match insetProtocol2Map.get t with
  | none => (d, some (Error.undefinedNFCType t))
  | some cmd => Device.Write T d cmd

/-- Source: `func (d *Device) PacketSenseRequest`. -/
def Device.PacketSenseRequest {σ ε : Type} (T : Transport σ ε) (d : Device σ) (t : Rune) :
    Device σ × Option (Error ε) :=
  match requestMap.get t with
  | none => (d, some (Error.undefinedNFCType t))
  | some cmd => Device.Write T d cmd

/-! ## The session of cmd/read/main.go -/

/-- How `main` ends once the device is open: `log.Fatal(err)`, a run-time panic, or the
line it prints (the decoded length and the bytes of `resp`). -/
inductive Outcome (ε : Type) where
  | fatal (err : Error ε)
  | panic
  | printed (len : Nat) (resp : List Nat)
  deriving DecidableEq, Repr

/-- Source: `func main` of `cmd/read/main.go`, from line 18 on (after `NewDevice` has
returned the device). The slice expression `resp[5:7]` is bounded by the capacity of
`resp`, which is `MaxPacketSize`; it panics when the capacity is below 7. -/
def main {σ ε : Type} (T : Transport σ ε) (d : Device σ) : Device σ × Outcome ε :=
  match Device.PacketInit T d with
  | (d, some err) => (d, Outcome.fatal err)
  | (d, none) =>
  match Device.PacketSetCommandType T d with
  | (d, some err) => (d, Outcome.fatal err)
  | (d, none) =>
  match Device.PacketSwitchRF T d with
  | (d, some err) => (d, Outcome.fatal err)
  | (d, none) =>
  match Device.PacketInsetRF T d runeF with
  | (d, some err) => (d, Outcome.fatal err)
  | (d, none) =>
  match Device.PacketInsetProtocol1 T d with
  | (d, some err) => (d, Outcome.fatal err)
  | (d, none) =>
  match Device.PacketInsetProtocol2 T d runeF with
  | (d, some err) => (d, Outcome.fatal err)
  | (d, none) =>
  match Device.PacketSenseRequest T d runeF with
  | (d, some err) => (d, Outcome.fatal err)
  | (d, none) =>
  match Device.Read T d with
  | (d, _, some err) => (d, Outcome.fatal (Error.transport err))
  | (d, _, none) =>
  match Device.Read T d with
  | (d, _, some err) => (d, Outcome.fatal (Error.transport err))
  | (d, resp, none) =>
    if 7 ≤ resp.arr.length then
      let len := uint16LE (resp.arr.getD 5 0) (resp.arr.getD 6 0)
      (d, Outcome.printed len resp.bytes)
    else (d, Outcome.panic)

/-! ## Observations on the log -/

/-- The frames written, in order. -/
def writesOf : List Event → List (List Nat)
  | [] => []
  | Event.write bs :: rest => bs :: writesOf rest
  | Event.read _ :: rest => writesOf rest

/-- The byte sequences returned by the reads, in order. -/
def readsOf : List Event → List (List Nat)
  | [] => []
  | Event.write _ :: rest => readsOf rest
  | Event.read bs :: rest => bs :: readsOf rest

/-- The reads at the head of a log, up to the first write. -/
def leadingReads : List Event → List (List Nat)
  | [] => []
  | Event.write _ :: _ => []
  | Event.read bs :: rest => bs :: leadingReads rest

/-- Every written frame, paired with the reads that follow it before the next write (or
the end of the log). -/
def segments : List Event → List (List Nat × List (List Nat))
  | [] => []
  | Event.write bs :: rest => (bs, leadingReads rest) :: segments rest
  | Event.read _ :: rest => segments rest

/-- For every written frame but the last, the number of reads between it and the next
written frame. -/
def readsBetweenWrites (log : List Event) : List Nat :=
  ((segments log).map (fun s => s.2.length)).dropLast

/-- The reads that follow the last written frame. -/
def readsAfterLastWrite (log : List Event) : List (List Nat) :=
  match (segments log).getLast? with
  | some s => s.2
  | none => []

/-- The device as `main` holds it at line 43, where it calls `PacketSenseRequest`, when the
six steps before have succeeded. -/
def deviceAtSenseRequest {σ ε : Type} (T : Transport σ ε) (d : Device σ) : Device σ :=
  let d := (Device.PacketInit T d).1
  let d := (Device.PacketSetCommandType T d).1
  let d := (Device.PacketSwitchRF T d).1
  let d := (Device.PacketInsetRF T d runeF).1
  let d := (Device.PacketInsetProtocol1 T d).1
  (Device.PacketInsetProtocol2 T d runeF).1

/-- The unsigned 16-bit little-endian value at offsets 5-6 of a frame. -/
def lengthField (frame : List Nat) : Nat :=
  uint16LE (frame.getD 5 0) (frame.getD 6 0)

/-- The error of the transport write that `Device.Write` makes for `command`. -/
def writeErr {σ ε : Type} (T : Transport σ ε) (d : Device σ) (command : List Nat) :
    Option ε :=
  (T.outWrite d.st (writeBuffer command)).2.2

/-- The error of the transport read that follows that write. -/
def ackErr {σ ε : Type} (T : Transport σ ε) (d : Device σ) (command : List Nat) :
    Option ε :=
  (T.inRead (T.outWrite d.st (writeBuffer command)).1 d.maxPacketSize).2.2

/-- One step of the session: an operation on the device that returns an error or `nil`. -/
abbrev Step (σ ε : Type) := Device σ → Device σ × Option (Error ε)

/-- `Device.Read` seen as a step: the bytes read are dropped, the error is kept. -/
def readStep {σ ε : Type} (T : Transport σ ε) : Step σ ε :=
  fun d => ((Device.Read T d).1, (Device.Read T d).2.2.map Error.transport)

/-- The nine calls of `main` (lines 18-51), in the order of the source. -/
def sessionSteps {σ ε : Type} (T : Transport σ ε) : List (Step σ ε) :=
  [ Device.PacketInit T,
    Device.PacketSetCommandType T,
    Device.PacketSwitchRF T,
    fun d => Device.PacketInsetRF T d runeF,
    Device.PacketInsetProtocol1 T,
    fun d => Device.PacketInsetProtocol2 T d runeF,
    fun d => Device.PacketSenseRequest T d runeF,
    readStep T,
    readStep T ]

/-- Run steps one after the other on a device, up to and including the first that fails. -/
def runSteps {σ ε : Type} : List (Step σ ε) → Device σ → Device σ × Option (Error ε)
  | [], d => (d, none)
  | f :: fs, d =>
    match f d with
    | (d1, some err) => (d1, some err)
    | (d1, none) => runSteps fs d1

/-! ## Sample transports -/

/-- A transport that counts its calls. The call made in state `s` fails with `wErr s`
(write) or `rErr s` (read); a read in state `s` delivers eight bytes that carry `s` at
offsets 0 and 5, and leaves `EE` in the rest of the buffer. -/
def counterTransport (wErr rErr : Nat → Option Nat) : Transport Nat Nat where
  outWrite := fun s bs => (s + 1, bs.length, wErr s)
  inRead := fun s _ => (s + 1, [s, 0, 0, 0, 0, s, 0, 0], rErr s)
  inResidue := fun _ k => List.replicate k 0xee

/-- A transport on which every call succeeds and every read is short: it delivers the
three bytes `s 07 09` and leaves `EE` in the rest of the buffer. -/
def shortReadTransport : Transport Nat Nat where
  outWrite := fun s bs => (s + 1, bs.length, none)
  inRead := fun s _ => (s + 1, [s, 7, 9], none)
  inResidue := fun _ k => List.replicate k 0xee

/-- A transport on which every call succeeds. -/
def okTransport : Transport Nat Nat := counterTransport (fun _ => none) (fun _ => none)

/-- A transport that counts its calls and fails, with error 9, at call number `k` only. -/
def failAtTransport (k : Nat) : Transport Nat Nat :=
  counterTransport (fun s => if s = k then some 9 else none)
    (fun s => if s = k then some 9 else none)

/-- A freshly opened device: nothing written or read yet. -/
def freshDevice : Device Nat := { maxPacketSize := 64, st := 0, log := [] }

/-! ## Lemmas on the codec -/

theorem foldl_add_mod (data : List Nat) (a : Nat) :
    data.foldl (fun sum b => (sum + b) % 256) (a % 256) = (a + data.sum) % 256 := by
  induction data generalizing a with
  | nil => simp
  | cons b bs ih =>
    simp only [List.foldl_cons, List.sum_cons]
    rw [Nat.mod_add_mod, ih (a + b), Nat.add_assoc]

theorem checksum_eq (data : List Nat) :
    checksum data = (256 - data.sum % 256) % 256 := by
  have h := foldl_add_mod data 0
  simp only [Nat.zero_mod, Nat.zero_add] at h
  unfold checksum
  simp only [h]
  omega

theorem sum_add_checksum_mod (data : List Nat) :
    (data.sum + checksum data) % 256 = 0 := by
  rw [checksum_eq]
  omega

theorem lengthField_writeBuffer (p : List Nat) :
    lengthField (writeBuffer p) = (p.length + 1) % 65536 := by
  simp only [writeBuffer, packetHeader, putUint16, lengthField, uint16LE, List.cons_append,
    List.nil_append, List.getD_cons_succ, List.getD_cons_zero, List.length_cons,
    List.length_append, List.length_nil]
  omega

/-! ## Lemmas on the log -/

theorem writesOf_append (l1 l2 : List Event) :
    writesOf (l1 ++ l2) = writesOf l1 ++ writesOf l2 := by
  induction l1 with
  | nil => rfl
  | cons e es ih => cases e <;> simp [writesOf, ih]

theorem readsOf_append (l1 l2 : List Event) :
    readsOf (l1 ++ l2) = readsOf l1 ++ readsOf l2 := by
  induction l1 with
  | nil => rfl
  | cons e es ih => cases e <;> simp [readsOf, ih]

/-- The log after `Device.Write`: the frame is written, and the acknowledgement is read
exactly when the write succeeded. -/
theorem Write_log {σ ε : Type} (T : Transport σ ε) (d : Device σ) (p : List Nat) :
    (Device.Write T d p).1.log =
      d.log ++ Event.write (writeBuffer p) ::
        (match (T.outWrite d.st (writeBuffer p)).2.2 with
         | some _ => []
         | none =>
           [Event.read ((T.inRead (T.outWrite d.st (writeBuffer p)).1 d.maxPacketSize).2.1.take
              d.maxPacketSize)]) := by
  unfold Device.Write Device.outWrite Device.Read
  rcases hw : T.outWrite d.st (writeBuffer p) with ⟨s1, n1, _ | e1⟩
  · rcases hr : T.inRead s1 d.maxPacketSize with ⟨s2, bs, _ | e2⟩ <;> simp [hr]
  · simp

theorem Write_writes {σ ε : Type} (T : Transport σ ε) (d : Device σ) (p : List Nat) :
    writesOf (Device.Write T d p).1.log = writesOf d.log ++ [writeBuffer p] := by
  rw [Write_log, writesOf_append]
  cases (T.outWrite d.st (writeBuffer p)).2.2 <;> simp [writesOf]

theorem Write_none_iff {σ ε : Type} (T : Transport σ ε) (d : Device σ) (p : List Nat) :
    (Device.Write T d p).2 = none ↔ (writeErr T d p = none ∧ ackErr T d p = none) := by
  unfold writeErr ackErr Device.Write Device.outWrite Device.Read
  rcases hw : T.outWrite d.st (writeBuffer p) with ⟨s1, n1, _ | e1⟩
  · rcases hr : T.inRead s1 d.maxPacketSize with ⟨s2, bs, _ | e2⟩ <;> simp [hr]
  · simp

/-! ## Lemmas on a transport whose calls all succeed -/

theorem fillBuffer_length (k : Nat) (recv residue : List Nat) :
    (fillBuffer k recv residue).length = k := by
  simp only [fillBuffer, List.length_take, List.length_append, List.length_replicate]
  omega

theorem fillBuffer_take (l residue : List Nat) (k : Nat) :
    List.take (l.take k).length (fillBuffer k (l.take k) residue) = l.take k := by
  have h : (l.take k).length ≤ k := by simp
  rw [fillBuffer, List.take_take, Nat.min_eq_left h, List.append_assoc, List.take_left]

/-- The bytes of the buffer at the offsets of the delivered bytes are the delivered
bytes. -/
theorem fillBuffer_getD (k i : Nat) (recv residue : List Nat) (hi : i < recv.length)
    (hk : recv.length ≤ k) :
    (fillBuffer k recv residue).getD i 0 = recv.getD i 0 := by
  have hik : i < k := Nat.lt_of_lt_of_le hi hk
  simp only [fillBuffer, List.getD_eq_getElem?_getD, List.getElem?_take, hik, if_true,
    List.append_assoc, List.getElem?_append_left hi]

/-- The whole run of `main` on a transport whose calls all succeed: the log gains seven
writes and nine reads in the order shown, and the bytes printed are those of the last
read. -/
theorem main_ok {σ ε : Type} (T : Transport σ ε) (hW : ∀ s bs, (T.outWrite s bs).2.2 = none)
    (hR : ∀ s k, (T.inRead s k).2.2 = none) (d : Device σ) :
    ∃ r1 r2 r3 r4 r5 r6 r7 r8,
      (main T d).1.log = d.log ++
        [Event.write [0x00, 0x00, 0xff, 0x00, 0xff, 0x00],
         Event.write (writeBuffer [0x2a, 0x01]), Event.read r1,
         Event.write (writeBuffer [0x06, 0x00]), Event.read r2,
         Event.write (writeBuffer [0x00, 0x01, 0x01, 0x0f, 0x01]), Event.read r3,
         Event.write (writeBuffer protocol1Cmd), Event.read r4,
         Event.write (writeBuffer [0x02, 0x00, 0x18]), Event.read r5,
         Event.write (writeBuffer [0x04, 0x6e, 0x00, 0x06, 0x00, 0xff, 0xff, 0x01, 0x00]),
         Event.read r6, Event.read r7, Event.read r8]
      ∧ ∃ len, (main T d).2 =
          if 7 ≤ d.maxPacketSize then Outcome.printed len r8 else Outcome.panic := by
  have hrf : insetRFMap.get runeF = some [0x00, 0x01, 0x01, 0x0f, 0x01] := by decide
  have hp2 : insetProtocol2Map.get runeF = some [0x02, 0x00, 0x18] := by decide
  have hrq : requestMap.get runeF
      = some [0x04, 0x6e, 0x00, 0x06, 0x00, 0xff, 0xff, 0x01, 0x00] := by decide
  by_cases h7 : 7 ≤ d.maxPacketSize
  all_goals
    simp only [main, Device.PacketInit, Device.PacketSetCommandType, Device.PacketSwitchRF,
      Device.PacketInsetRF, Device.PacketInsetProtocol1, Device.PacketInsetProtocol2,
      Device.PacketSenseRequest, Device.Write, Device.outWrite, Device.Read, hW, hR, hrf, hp2,
      hrq, Option.map_none', Slice.bytes, fillBuffer_take, fillBuffer_length,
      List.append_assoc, List.singleton_append, List.cons_append, List.nil_append, h7,
      if_true, if_false]
    first
      | exact ⟨_, _, _, _, _, _, _, _, rfl, _, rfl⟩
      | exact ⟨_, _, _, _, _, _, _, _, rfl, 0, trivial⟩

/-- A short last read: the endpoint delivers the three bytes `0E 07 09` and leaves `EE`
behind them, so `main` prints those three bytes with a length decoded from the bytes at
offsets 5 and 6 of the buffer, `EE EE`, which are no part of the frame. -/
theorem main_short_read :
    (main shortReadTransport freshDevice).2 = Outcome.printed 0xeeee [14, 7, 9] := by
  decide

/-! ## Lemmas on the layout of a frame -/

/-- The frame split at offset 8: the eight bytes of header, length and length checksum,
then the body with its checksum, then the trailing zero. -/
theorem writeBuffer_split (p : List Nat) :
    writeBuffer p =
      [0x00, 0x00, 0xff, 0xff, 0xff, (p.length + 1) % 65536 % 256,
        (p.length + 1) % 65536 / 256 % 256,
        checksum [(p.length + 1) % 65536 % 256, (p.length + 1) % 65536 / 256 % 256]]
      ++ (((0xd6 :: p) ++ [checksum (0xd6 :: p)]) ++ [0x00]) := by
  simp [writeBuffer, packetHeader, putUint16, Nat.add_comm]

/-- The frame split at offset 9: nine bytes, the payload, then two bytes. -/
theorem writeBuffer_payload (p : List Nat) :
    writeBuffer p =
      [0x00, 0x00, 0xff, 0xff, 0xff, (p.length + 1) % 65536 % 256,
        (p.length + 1) % 65536 / 256 % 256,
        checksum [(p.length + 1) % 65536 % 256, (p.length + 1) % 65536 / 256 % 256], 0xd6]
      ++ (p ++ [checksum (0xd6 :: p), 0x00]) := by
  simp [writeBuffer, packetHeader, putUint16, Nat.add_comm]

theorem writeBuffer_length (p : List Nat) : (writeBuffer p).length = p.length + 11 := by
  rw [writeBuffer_payload]
  simp only [List.length_append, List.length_cons, List.length_nil]
  omega

theorem writeBuffer_extract (p : List Nat) :
    ((writeBuffer p).drop 9).take ((writeBuffer p).length - 11) = p := by
  rw [writeBuffer_length, writeBuffer_payload, Nat.add_sub_cancel]
  simp only [List.cons_append, List.nil_append, List.drop_succ_cons, List.drop_zero,
    List.take_left]

/-- The events `Device.Write` adds to the log contain one written frame, `writeBuffer p`. -/
theorem Write_new_writes {σ ε : Type} (T : Transport σ ε) (d : Device σ) (p : List Nat) :
    writesOf ((Device.Write T d p).1.log.drop d.log.length) = [writeBuffer p] := by
  rw [Write_log, List.drop_left]
  cases (T.outWrite d.st (writeBuffer p)).2.2 <;> simp [writesOf]

/-- On a transport whose calls succeed, `Device.Write` adds one write and then one read to
the log and returns `nil`. -/
theorem Write_ok {σ ε : Type} (T : Transport σ ε) (hW : ∀ s bs, (T.outWrite s bs).2.2 = none)
    (hR : ∀ s k, (T.inRead s k).2.2 = none) (d : Device σ) (p : List Nat) :
    ∃ r, (Device.Write T d p).1.log
        = d.log ++ [Event.write (writeBuffer p), Event.read r]
      ∧ (Device.Write T d p).2 = none := by
  refine ⟨(T.inRead (T.outWrite d.st (writeBuffer p)).1 d.maxPacketSize).2.1.take
    d.maxPacketSize, ?_, (Write_none_iff T d p).mpr ⟨hW _ _, hR _ _⟩⟩
  rw [Write_log, hW]

/-! ## Lemmas on runs that fail -/

/-- When the steps before position `k` succeed and the step at `k` fails, the run of the
whole list ends with that failure and the device the failing step left. -/
theorem runSteps_fail_at {σ ε : Type} (l : List (Step σ ε)) (k : Nat) (d dk d1 : Device σ)
    (f : Step σ ε) (err : Error ε) (hpre : runSteps (l.take k) d = (dk, none))
    (hk : l[k]? = some f) (hf : f dk = (d1, some err)) :
    runSteps l d = (d1, some err) := by
  induction l generalizing k d with
  | nil => simp at hk
  | cons g gs ih =>
    cases k with
    | zero =>
      simp only [List.take_zero, runSteps, Prod.mk.injEq, and_true] at hpre
      simp only [List.getElem?_cons_zero, Option.some.injEq] at hk
      subst hpre hk
      simp only [runSteps, hf]
    | succ j =>
      simp only [List.take_succ_cons, runSteps] at hpre
      simp only [List.getElem?_cons_succ] at hk
      rcases hg : g d with ⟨d2, _ | e2⟩
      · rw [hg] at hpre
        simp only [runSteps, hg]
        exact ih j d2 hpre hk
      · rw [hg] at hpre
        simp at hpre

/-- A failing run of the nine steps is a run of `main` that ends in `log.Fatal` with the
same error and the same device. -/
theorem main_of_runSteps_fail {σ ε : Type} (T : Transport σ ε) (d d1 : Device σ)
    (err : Error ε) (h : runSteps (sessionSteps T) d = (d1, some err)) :
    main T d = (d1, Outcome.fatal err) := by
  simp only [sessionSteps, runSteps, readStep] at h
  unfold main
  rcases h0 : Device.PacketInit T d with ⟨a0, _ | e0⟩ <;> rw [h0] at h <;>
    simp only [Prod.mk.injEq, Option.some.injEq] at h ⊢
  swap
  · exact ⟨h.1, by rw [h.2]⟩
  rcases h1 : Device.PacketSetCommandType T a0 with ⟨a1, _ | e1⟩ <;> rw [h1] at h <;>
    simp only [Prod.mk.injEq, Option.some.injEq] at h ⊢
  swap
  · exact ⟨h.1, by rw [h.2]⟩
  rcases h2 : Device.PacketSwitchRF T a1 with ⟨a2, _ | e2⟩ <;> rw [h2] at h <;>
    simp only [Prod.mk.injEq, Option.some.injEq] at h ⊢
  swap
  · exact ⟨h.1, by rw [h.2]⟩
  rcases h3 : Device.PacketInsetRF T a2 runeF with ⟨a3, _ | e3⟩ <;> rw [h3] at h <;>
    simp only [Prod.mk.injEq, Option.some.injEq] at h ⊢
  swap
  · exact ⟨h.1, by rw [h.2]⟩
  rcases h4 : Device.PacketInsetProtocol1 T a3 with ⟨a4, _ | e4⟩ <;> rw [h4] at h <;>
    simp only [Prod.mk.injEq, Option.some.injEq] at h ⊢
  swap
  · exact ⟨h.1, by rw [h.2]⟩
  rcases h5 : Device.PacketInsetProtocol2 T a4 runeF with ⟨a5, _ | e5⟩ <;> rw [h5] at h <;>
    simp only [Prod.mk.injEq, Option.some.injEq] at h ⊢
  swap
  · exact ⟨h.1, by rw [h.2]⟩
  rcases h6 : Device.PacketSenseRequest T a5 runeF with ⟨a6, _ | e6⟩ <;> rw [h6] at h <;>
    simp only [Prod.mk.injEq, Option.some.injEq] at h ⊢
  swap
  · exact ⟨h.1, by rw [h.2]⟩
  rcases h7 : Device.Read T a6 with ⟨a7, b7, _ | e7⟩ <;> rw [h7] at h <;>
    simp only [Option.map_some', Option.map_none', Prod.mk.injEq, Option.some.injEq] at h ⊢
  swap
  · exact ⟨h.1, by rw [h.2]⟩
  rcases h8 : Device.Read T a7 with ⟨a8, b8, _ | e8⟩ <;> rw [h8] at h <;>
    simp only [Option.map_some', Option.map_none', Prod.mk.injEq, Option.some.injEq] at h ⊢
  · exact absurd h.2 (by simp)
  · exact ⟨h.1, by rw [h.2]⟩

/-! ## Claims on the codec -/

/-- C1: for every command payload `p` with `len(p) + 1 ≤ 65535`, `Device.Write` performs
one transport write, and the bytes it hands over are `00 00 FF FF FF`, the two
little-endian bytes of `n = len(p) + 1`, the checksum of those two bytes, the body `D6 p`,
the checksum of the body, and one trailing `00`. -/
theorem write_frame_layout {σ ε : Type} (T : Transport σ ε) (d : Device σ) (p : List Nat)
    (h : p.length + 1 ≤ 65535) :
    writesOf (Device.Write T d p).1.log = writesOf d.log ++
      [[0x00, 0x00, 0xff, 0xff, 0xff]
        ++ [(p.length + 1) % 256, (p.length + 1) / 256]
        ++ [checksum [(p.length + 1) % 256, (p.length + 1) / 256]]
        ++ (0xd6 :: p)
        ++ [checksum (0xd6 :: p)]
        ++ [0x00]] := by
  rw [Write_writes]
  have h1 : (p.length + 1) % 65536 = p.length + 1 := Nat.mod_eq_of_lt (by omega)
  have h2 : (p.length + 1) / 256 % 256 = (p.length + 1) / 256 :=
    Nat.mod_eq_of_lt (by omega)
  simp [writeBuffer, packetHeader, putUint16, h1, h2]

/-- Witness of C1 at the payload `06 00` on a fresh device. -/
theorem write_frame_layout_witness :
    [0x06, 0x00].length + 1 ≤ 65535
    ∧ writesOf (Device.Write okTransport freshDevice [0x06, 0x00]).1.log =
      [[0x00, 0x00, 0xff, 0xff, 0xff, 0x03, 0x00, 0xfd, 0xd6, 0x06, 0x00, 0x24, 0x00]] :=
  ⟨by decide, write_frame_layout okTransport freshDevice [0x06, 0x00] (by decide)⟩

/-- C2, refuted as stated: the body `D6 2A 01` sums to `0x101`, so its checksum is `FF`,
not `29`, and the frame written is not the one ending in `29 00`. -/
theorem set_command_type_frame_counterexample :
    ¬ (checksum [0xd6, 0x2a, 0x01] = 0x29
        ∨ writeBuffer [0x2a, 0x01] =
          [0x00, 0x00, 0xff, 0xff, 0xff, 0x03, 0x00, 0xfd, 0xd6, 0x2a, 0x01, 0x29, 0x00]
        ∨ writesOf (Device.PacketSetCommandType okTransport freshDevice).1.log =
          [[0x00, 0x00, 0xff, 0xff, 0xff, 0x03, 0x00, 0xfd, 0xd6, 0x2a, 0x01, 0x29, 0x00]]) := by
  decide

/-- C2, amended: encoding the payload `2A 01`, the one `PacketSetCommandType` sends, gives
the body `D6 2A 01`, the length bytes `03 00`, the length checksum `FD`, the body checksum
`FF` and the frame `00 00 FF FF FF 03 00 FD D6 2A 01 FF 00`. -/
theorem set_command_type_frame {σ ε : Type} (T : Transport σ ε) (d : Device σ) :
    [0xd6] ++ [0x2a, 0x01] = [0xd6, 0x2a, 0x01]
    ∧ putUint16 (([0xd6] ++ [0x2a, 0x01]).length % 65536) = [0x03, 0x00]
    ∧ checksum [0x03, 0x00] = 0xfd
    ∧ checksum [0xd6, 0x2a, 0x01] = 0xff
    ∧ writeBuffer [0x2a, 0x01] =
        [0x00, 0x00, 0xff, 0xff, 0xff, 0x03, 0x00, 0xfd, 0xd6, 0x2a, 0x01, 0xff, 0x00]
    ∧ writesOf (Device.PacketSetCommandType T d).1.log = writesOf d.log ++
        [[0x00, 0x00, 0xff, 0xff, 0xff, 0x03, 0x00, 0xfd, 0xd6, 0x2a, 0x01, 0xff, 0x00]] := by
  refine ⟨rfl, by decide, by decide, by decide, by decide, ?_⟩
  unfold Device.PacketSetCommandType
  rw [Write_writes]
  have h : writeBuffer [0x2a, 0x01] =
      [0x00, 0x00, 0xff, 0xff, 0xff, 0x03, 0x00, 0xfd, 0xd6, 0x2a, 0x01, 0xff, 0x00] := by
    decide
  rw [h]

/-- C3: for every byte sequence `b`, the empty one included, `checksum b` is
`(256 - (sum of b mod 256)) mod 256`, and the sum of `b` plus `checksum b` is a multiple of
256. -/
theorem checksum_twos_complement (b : List Nat) :
    checksum b = (256 - b.sum % 256) % 256 ∧ (b.sum + checksum b) % 256 = 0 := by
  refine ⟨checksum_eq b, ?_⟩
  rw [checksum_eq]
  omega

/-- C4, refuted as stated: the payload of 65535 zero bytes has a length that fits in 16
bits, its body is 65536 bytes long, and the length field of the frame written is 0. -/
theorem length_field_counterexample :
    (List.replicate 65535 0).length ≤ 65535
    ∧ writesOf (Device.Write okTransport freshDevice (List.replicate 65535 0)).1.log
        = [writeBuffer (List.replicate 65535 0)]
    ∧ ([0xd6] ++ List.replicate 65535 0).length = 65536
    ∧ lengthField (writeBuffer (List.replicate 65535 0)) = 0
    ∧ ¬ lengthField (writeBuffer (List.replicate 65535 0))
        = (List.replicate 65535 0).length + 1 := by
  have hl : (List.replicate 65535 0).length = 65535 := List.length_replicate _ _
  refine ⟨by rw [hl], ?_, ?_, ?_, ?_⟩
  · rw [Write_writes]; rfl
  · rw [List.length_append, hl]; rfl
  · rw [lengthField_writeBuffer, hl]
  · rw [lengthField_writeBuffer, hl]; decide

/-- C4, amended: for every command payload with `len(p) ≤ 65534` (so that the body length
`len(p) + 1` fits in 16 bits), the unsigned 16-bit little-endian value at offsets 5-6 of
the frame written by `Device.Write` is the length of the body, `len(p) + 1`. -/
theorem length_field_eq_body_length {σ ε : Type} (T : Transport σ ε) (d : Device σ)
    (p : List Nat) (h : p.length ≤ 65534) :
    writesOf (Device.Write T d p).1.log = writesOf d.log ++ [writeBuffer p]
    ∧ lengthField (writeBuffer p) = ([0xd6] ++ p).length
    ∧ ([0xd6] ++ p).length = p.length + 1 := by
  have hb : ([0xd6] ++ p).length = p.length + 1 := by
    rw [List.length_append, List.length_singleton, Nat.add_comm]
  refine ⟨Write_writes T d p, ?_, hb⟩
  rw [lengthField_writeBuffer, Nat.mod_eq_of_lt (by omega), hb]

/-- Witness of the amended C4 at the payload `06 00` on a fresh device. -/
theorem length_field_eq_body_length_witness :
    [0x06, 0x00].length ≤ 65534
    ∧ writesOf (Device.Write okTransport freshDevice [0x06, 0x00]).1.log
      = [writeBuffer [0x06, 0x00]]
    ∧ lengthField (writeBuffer [0x06, 0x00]) = 3
    ∧ ([0xd6] ++ [0x06, 0x00]).length = 3 :=
  ⟨by decide, length_field_eq_body_length okTransport freshDevice [0x06, 0x00] (by decide)⟩

/-! ## Lemmas on the catalog -/

/-- A rune other than `'A'`, `'B'`, `'F'` is a key of none of the three tables. -/
theorem catalog_miss (t : Rune) (hA : t ≠ runeA) (hB : t ≠ runeB) (hF : t ≠ runeF) :
    insetRFMap.get t = none ∧ insetProtocol2Map.get t = none ∧ requestMap.get t = none := by
  have h1 : (t == runeF) = false := beq_eq_false_iff_ne.mpr hF
  have h2 : (t == runeA) = false := beq_eq_false_iff_ne.mpr hA
  have h3 : (t == runeB) = false := beq_eq_false_iff_ne.mpr hB
  simp [ByteMap.get, insetRFMap, insetProtocol2Map, requestMap, List.lookup, h1, h2, h3]

/-! ## Claims on the catalog -/

/-- C5: each of the three catalog lookups succeeds exactly on the card types `'A'`, `'B'`
and `'F'`: it succeeds for each of them and fails for every other rune, so the three
tables have the same key set. -/
theorem catalog_key_sets (t : Rune) :
    ((insetRFMap.get t).isSome = true ↔ (t = runeA ∨ t = runeB ∨ t = runeF))
    ∧ ((insetProtocol2Map.get t).isSome = true ↔ (t = runeA ∨ t = runeB ∨ t = runeF))
    ∧ ((requestMap.get t).isSome = true ↔ (t = runeA ∨ t = runeB ∨ t = runeF)) := by
  by_cases hF : t = runeF
  · subst hF; decide
  by_cases hA : t = runeA
  · subst hA; decide
  by_cases hB : t = runeB
  · subst hB; decide
  obtain ⟨h1, h2, h3⟩ := catalog_miss t hA hB hF
  simp [h1, h2, h3, hA, hB, hF]

/-- C6: for every rune `t` other than `'A'`, `'B'`, `'F'` and every device, each of
`PacketInsetRF t`, `PacketInsetProtocol2 t` and `PacketSenseRequest t` returns the
"undefined NFC type" error and leaves the device as it was: no transport write, no
transport read, the log unchanged. -/
theorem undefined_type_no_io {σ ε : Type} (T : Transport σ ε) (d : Device σ) (t : Rune)
    (hA : t ≠ runeA) (hB : t ≠ runeB) (hF : t ≠ runeF) :
    Device.PacketInsetRF T d t = (d, some (Error.undefinedNFCType t))
    ∧ Device.PacketInsetProtocol2 T d t = (d, some (Error.undefinedNFCType t))
    ∧ Device.PacketSenseRequest T d t = (d, some (Error.undefinedNFCType t)) := by
  obtain ⟨h1, h2, h3⟩ := catalog_miss t hA hB hF
  simp only [Device.PacketInsetRF, Device.PacketInsetProtocol2, Device.PacketSenseRequest,
    h1, h2, h3, and_self]

/-- Witness of C6 at the rune `'C'` (67) on a fresh device. -/
theorem undefined_type_no_io_witness :
    ((67 : Rune) ≠ runeA ∧ (67 : Rune) ≠ runeB ∧ (67 : Rune) ≠ runeF)
    ∧ Device.PacketInsetRF okTransport freshDevice 67
        = (freshDevice, some (Error.undefinedNFCType 67))
    ∧ Device.PacketInsetProtocol2 okTransport freshDevice 67
        = (freshDevice, some (Error.undefinedNFCType 67))
    ∧ Device.PacketSenseRequest okTransport freshDevice 67
        = (freshDevice, some (Error.undefinedNFCType 67)) :=
  ⟨by decide,
    undefined_type_no_io okTransport freshDevice 67 (by decide) (by decide) (by decide)⟩

/-! ## Claims on Device.Write and the session -/

/-- C7: for every payload, `Device.Write` succeeds exactly when the transport write and
the one transport read after it both succeed; when the write fails it returns that error
and performs no read; when the write succeeds it performs exactly one read, and when that
read fails it returns the read's error. -/
theorem write_error_surface {σ ε : Type} (T : Transport σ ε) (d : Device σ) (p : List Nat) :
    ((Device.Write T d p).2 = none ↔ (writeErr T d p = none ∧ ackErr T d p = none))
    ∧ (∀ e, writeErr T d p = some e →
        (Device.Write T d p).2 = some (Error.transport e)
        ∧ (Device.Write T d p).1.log = d.log ++ [Event.write (writeBuffer p)])
    ∧ (writeErr T d p = none →
        ∃ r, (Device.Write T d p).1.log
          = d.log ++ [Event.write (writeBuffer p), Event.read r])
    ∧ (∀ e, writeErr T d p = none → ackErr T d p = some e →
        (Device.Write T d p).2 = some (Error.transport e)) := by
  unfold writeErr ackErr Device.Write Device.outWrite Device.Read
  rcases hw : T.outWrite d.st (writeBuffer p) with ⟨s1, n1, _ | e1⟩
  · rcases hr : T.inRead s1 d.maxPacketSize with ⟨s2, bs, _ | e2⟩ <;> simp [hr]
  · simp

/-- Witness of C7 at two failing transports on a fresh device. When the write (call 0)
fails with error 9, `Write` returns error 9 and the log holds the write alone; when the
write succeeds and the read (call 1) fails with error 7, `Write` returns error 7. -/
theorem write_error_surface_witness :
    ((Device.Write (counterTransport (fun _ => some 9) (fun _ => none)) freshDevice
          [0x06, 0x00]).2 = some (Error.transport 9)
      ∧ (Device.Write (counterTransport (fun _ => some 9) (fun _ => none)) freshDevice
          [0x06, 0x00]).1.log = [Event.write (writeBuffer [0x06, 0x00])])
    ∧ (Device.Write (counterTransport (fun _ => none) (fun _ => some 7)) freshDevice
          [0x06, 0x00]).2 = some (Error.transport 7) :=
  ⟨(write_error_surface (counterTransport (fun _ => some 9) (fun _ => none)) freshDevice
      [0x06, 0x00]).2.1 9 rfl,
    (write_error_surface (counterTransport (fun _ => none) (fun _ => some 7)) freshDevice
      [0x06, 0x00]).2.2.2 7 rfl rfl⟩

/-- C8, refuted as stated: on a freshly opened device, on which nothing has been issued,
`PacketSenseRequest 'F'` succeeds and writes the sense-request frame. -/
theorem sense_request_order_counterexample :
    freshDevice.log = []
    ∧ (Device.PacketSenseRequest okTransport freshDevice runeF).2 = none
    ∧ writesOf (Device.PacketSenseRequest okTransport freshDevice runeF).1.log
        = [writeBuffer [0x04, 0x6e, 0x00, 0x06, 0x00, 0xff, 0xff, 0x01, 0x00]] := by
  decide

/-- C8, amended: `PacketSenseRequest t` does not look at what was issued before. For every
device, whatever its log, and every card type `t` of the catalog, it writes the
sense-request frame of `t` as its one transport write, and it fails only when that write
or the read after it fails. -/
theorem sense_request_any_state {σ ε : Type} (T : Transport σ ε) (d : Device σ) (t : Rune)
    (cmd : List Nat) (h : requestMap.get t = some cmd) :
    writesOf (Device.PacketSenseRequest T d t).1.log = writesOf d.log ++ [writeBuffer cmd]
    ∧ ((Device.PacketSenseRequest T d t).2 = none
        ↔ (writeErr T d cmd = none ∧ ackErr T d cmd = none)) := by
  unfold Device.PacketSenseRequest
  rw [h]
  exact ⟨Write_writes T d cmd, Write_none_iff T d cmd⟩

/-- Witness of the amended C8 at card type `'F'` on a fresh device. -/
theorem sense_request_any_state_witness :
    requestMap.get runeF = some [0x04, 0x6e, 0x00, 0x06, 0x00, 0xff, 0xff, 0x01, 0x00]
    ∧ writesOf (Device.PacketSenseRequest okTransport freshDevice runeF).1.log
      = writesOf freshDevice.log
        ++ [writeBuffer [0x04, 0x6e, 0x00, 0x06, 0x00, 0xff, 0xff, 0x01, 0x00]]
    ∧ ((Device.PacketSenseRequest okTransport freshDevice runeF).2 = none
        ↔ (writeErr okTransport freshDevice
              [0x04, 0x6e, 0x00, 0x06, 0x00, 0xff, 0xff, 0x01, 0x00] = none
            ∧ ackErr okTransport freshDevice
              [0x04, 0x6e, 0x00, 0x06, 0x00, 0xff, 0xff, 0x01, 0x00] = none)) :=
  ⟨by decide, sense_request_any_state okTransport freshDevice runeF
    [0x04, 0x6e, 0x00, 0x06, 0x00, 0xff, 0xff, 0x01, 0x00] (by decide)⟩

/-- C9: on a transport whose every write and read succeeds, `main` writes exactly seven
frames, in this order: the power-up frame, then the encodings of `2a 01`, of `06 00`, of
the RF parameters of `'F'`, of the protocol-1 constant, of the protocol-2 parameters of
`'F'` and of the sense request of `'F'`. No read lies between the power-up frame and the
next frame, and exactly one read lies between each later frame and the frame after it. -/
theorem main_frame_order {σ ε : Type} (T : Transport σ ε)
    (hW : ∀ s bs, (T.outWrite s bs).2.2 = none) (hR : ∀ s k, (T.inRead s k).2.2 = none)
    (d : Device σ) :
    insetRFMap.get runeF = some [0x00, 0x01, 0x01, 0x0f, 0x01]
    ∧ insetProtocol2Map.get runeF = some [0x02, 0x00, 0x18]
    ∧ requestMap.get runeF = some [0x04, 0x6e, 0x00, 0x06, 0x00, 0xff, 0xff, 0x01, 0x00]
    ∧ writesOf ((main T d).1.log.drop d.log.length) =
        [[0x00, 0x00, 0xff, 0x00, 0xff, 0x00],
         writeBuffer [0x2a, 0x01],
         writeBuffer [0x06, 0x00],
         writeBuffer [0x00, 0x01, 0x01, 0x0f, 0x01],
         writeBuffer protocol1Cmd,
         writeBuffer [0x02, 0x00, 0x18],
         writeBuffer [0x04, 0x6e, 0x00, 0x06, 0x00, 0xff, 0xff, 0x01, 0x00]]
    ∧ readsBetweenWrites ((main T d).1.log.drop d.log.length) = [0, 1, 1, 1, 1, 1] := by
  obtain ⟨r1, r2, r3, r4, r5, r6, r7, r8, hlog, -⟩ := main_ok T hW hR d
  rw [hlog, List.drop_left]
  refine ⟨by decide, by decide, by decide, ?_, ?_⟩
  · simp only [writesOf]
  · simp only [readsBetweenWrites, segments, leadingReads, List.map_cons, List.map_nil,
      List.length_cons, List.length_nil, List.dropLast_cons₂, List.dropLast_single]

/-- Witness of C9: the run of `main` on a fresh device over the sample transport. -/
theorem main_frame_order_witness :
    (∀ s bs, (okTransport.outWrite s bs).2.2 = none)
    ∧ (∀ s k, (okTransport.inRead s k).2.2 = none)
    ∧ insetRFMap.get runeF = some [0x00, 0x01, 0x01, 0x0f, 0x01]
    ∧ insetProtocol2Map.get runeF = some [0x02, 0x00, 0x18]
    ∧ requestMap.get runeF = some [0x04, 0x6e, 0x00, 0x06, 0x00, 0xff, 0xff, 0x01, 0x00]
    ∧ writesOf ((main okTransport freshDevice).1.log.drop freshDevice.log.length) =
        [[0x00, 0x00, 0xff, 0x00, 0xff, 0x00],
         writeBuffer [0x2a, 0x01],
         writeBuffer [0x06, 0x00],
         writeBuffer [0x00, 0x01, 0x01, 0x0f, 0x01],
         writeBuffer protocol1Cmd,
         writeBuffer [0x02, 0x00, 0x18],
         writeBuffer [0x04, 0x6e, 0x00, 0x06, 0x00, 0xff, 0xff, 0x01, 0x00]]
    ∧ readsBetweenWrites ((main okTransport freshDevice).1.log.drop freshDevice.log.length)
        = [0, 1, 1, 1, 1, 1] :=
  ⟨fun _ _ => rfl, fun _ _ => rfl,
    main_frame_order okTransport (fun _ _ => rfl) (fun _ _ => rfl) freshDevice⟩

/-- C10, refuted as stated: on the sample transport, whose reads return their call number,
three reads follow the sense-request frame (calls 12, 13 and 14), not two, and the bytes
`main` decodes and prints are those of the third read, not of the second. -/
theorem sense_response_reads_counterexample :
    readsAfterLastWrite (main okTransport freshDevice).1.log
      = [[12, 0, 0, 0, 0, 12, 0, 0], [13, 0, 0, 0, 0, 13, 0, 0], [14, 0, 0, 0, 0, 14, 0, 0]]
    ∧ ¬ (readsAfterLastWrite (main okTransport freshDevice).1.log).length = 2
    ∧ (main okTransport freshDevice).2 = Outcome.printed 14 [14, 0, 0, 0, 0, 14, 0, 0]
    ∧ ¬ (main okTransport freshDevice).2 = Outcome.printed 13 [13, 0, 0, 0, 0, 13, 0, 0] := by
  decide

/-- C10, amended: after the sense-request frame is written, exactly three reads are
performed on the transport. The first is the acknowledgement consumed inside the send
(`PacketSenseRequest` itself ends with it), the second is read by `main` and dropped, and
the third is the frame returned to the caller: its bytes are the ones `main` prints, and
the length `main` prints with them is decoded from its bytes 5 and 6 when it has at least
seven bytes. For a shorter third read `resp[5:7]` reaches behind the frame, into the part
of the buffer whose content the endpoint decides, so the decoded length is left open
there; `main` panics when the buffer itself is shorter than seven bytes. -/
theorem sense_response_reads {σ ε : Type} (T : Transport σ ε)
    (hW : ∀ s bs, (T.outWrite s bs).2.2 = none) (hR : ∀ s k, (T.inRead s k).2.2 = none)
    (d : Device σ) :
    ∃ r1 r2 r3 len,
      (Device.PacketSenseRequest T (deviceAtSenseRequest T d) runeF).1.log
        = (deviceAtSenseRequest T d).log ++
          [Event.write (writeBuffer [0x04, 0x6e, 0x00, 0x06, 0x00, 0xff, 0xff, 0x01, 0x00]),
           Event.read r1]
      ∧ (main T d).1.log
        = (deviceAtSenseRequest T d).log ++
          [Event.write (writeBuffer [0x04, 0x6e, 0x00, 0x06, 0x00, 0xff, 0xff, 0x01, 0x00]),
           Event.read r1, Event.read r2, Event.read r3]
      ∧ (main T d).2 =
          (if 7 ≤ d.maxPacketSize then Outcome.printed len r3 else Outcome.panic)
      ∧ (7 ≤ r3.length → len = uint16LE (r3.getD 5 0) (r3.getD 6 0)) := by
  have hrf : insetRFMap.get runeF = some [0x00, 0x01, 0x01, 0x0f, 0x01] := by decide
  have hp2 : insetProtocol2Map.get runeF = some [0x02, 0x00, 0x18] := by decide
  have hrq : requestMap.get runeF
      = some [0x04, 0x6e, 0x00, 0x06, 0x00, 0xff, 0xff, 0x01, 0x00] := by decide
  by_cases h7 : 7 ≤ d.maxPacketSize
  · simp only [main, deviceAtSenseRequest, Device.PacketInit, Device.PacketSetCommandType,
      Device.PacketSwitchRF, Device.PacketInsetRF, Device.PacketInsetProtocol1,
      Device.PacketInsetProtocol2, Device.PacketSenseRequest, Device.Write, Device.outWrite,
      Device.Read, hW, hR, hrf, hp2, hrq, Option.map_none', Slice.bytes, fillBuffer_take,
      fillBuffer_length, List.append_assoc, List.singleton_append,
      List.cons_append, List.nil_append, h7, if_true]
    refine ⟨_, _, _, _, rfl, rfl, rfl, ?_⟩
    intro h
    rw [fillBuffer_getD _ 5 _ _ (by omega) (List.length_take_le _ _),
      fillBuffer_getD _ 6 _ _ (by omega) (List.length_take_le _ _)]
  · simp only [main, deviceAtSenseRequest, Device.PacketInit, Device.PacketSetCommandType,
      Device.PacketSwitchRF, Device.PacketInsetRF, Device.PacketInsetProtocol1,
      Device.PacketInsetProtocol2, Device.PacketSenseRequest, Device.Write, Device.outWrite,
      Device.Read, hW, hR, hrf, hp2, hrq, Option.map_none', Slice.bytes, fillBuffer_take,
      fillBuffer_length, List.append_assoc, List.singleton_append,
      List.cons_append, List.nil_append, h7, if_false]
    refine ⟨_, _, _, 0, rfl, rfl, trivial, ?_⟩
    intro h
    simp only [List.length_take] at h
    omega

/-- Witness of the amended C10: the run of `main` on a fresh device over the sample
transport. -/
theorem sense_response_reads_witness :
    (∀ s bs, (okTransport.outWrite s bs).2.2 = none)
    ∧ (∀ s k, (okTransport.inRead s k).2.2 = none)
    ∧ ∃ r1 r2 r3 len,
      (Device.PacketSenseRequest okTransport (deviceAtSenseRequest okTransport freshDevice)
          runeF).1.log
        = (deviceAtSenseRequest okTransport freshDevice).log ++
          [Event.write (writeBuffer [0x04, 0x6e, 0x00, 0x06, 0x00, 0xff, 0xff, 0x01, 0x00]),
           Event.read r1]
      ∧ (main okTransport freshDevice).1.log
        = (deviceAtSenseRequest okTransport freshDevice).log ++
          [Event.write (writeBuffer [0x04, 0x6e, 0x00, 0x06, 0x00, 0xff, 0xff, 0x01, 0x00]),
           Event.read r1, Event.read r2, Event.read r3]
      ∧ (main okTransport freshDevice).2 =
          (if 7 ≤ freshDevice.maxPacketSize then Outcome.printed len r3 else Outcome.panic)
      ∧ (7 ≤ r3.length → len = uint16LE (r3.getD 5 0) (r3.getD 6 0)) :=
  ⟨fun _ _ => rfl, fun _ _ => rfl,
    sense_response_reads okTransport (fun _ _ => rfl) (fun _ _ => rfl) freshDevice⟩

/-- C11: if a step of the session run by `main` fails, whatever the failure (unsupported
card type, transport write error, transport read error), the sequence stops at that
step: `main` ends in `log.Fatal` with the error of the step, and the device is the one
the failing step left, so no later frame is written and no later read is performed. The
steps before position `k` succeed, from `d` to `dk`, and the step at `k` fails on `dk`. -/
theorem main_stops_at_failure {σ ε : Type} (T : Transport σ ε) (d dk d1 : Device σ) (k : Nat)
    (f : Step σ ε) (err : Error ε)
    (hpre : runSteps ((sessionSteps T).take k) d = (dk, none))
    (hk : (sessionSteps T)[k]? = some f) (hf : f dk = (d1, some err)) :
    main T d = (d1, Outcome.fatal err)
    ∧ writesOf (main T d).1.log = writesOf d1.log
    ∧ readsOf (main T d).1.log = readsOf d1.log := by
  have h := main_of_runSteps_fail T d d1 err
    (runSteps_fail_at (sessionSteps T) k d dk d1 f err hpre hk hf)
  rw [h]
  exact ⟨rfl, rfl, rfl⟩

/-- Witness of C11 on a transport whose call 5, the write of `PacketInsetRF`, fails: the
three steps before succeed, the fourth fails, and `main` ends with its error and a log
that stops at the failed write. -/
theorem main_stops_at_failure_witness :
    main (failAtTransport 5) freshDevice
      = (⟨64, 6,
          [Event.write [0x00, 0x00, 0xff, 0x00, 0xff, 0x00],
           Event.write (writeBuffer [0x2a, 0x01]), Event.read [2, 0, 0, 0, 0, 2, 0, 0],
           Event.write (writeBuffer [0x06, 0x00]), Event.read [4, 0, 0, 0, 0, 4, 0, 0],
           Event.write (writeBuffer [0x00, 0x01, 0x01, 0x0f, 0x01])]⟩,
         Outcome.fatal (Error.transport 9))
    ∧ writesOf (main (failAtTransport 5) freshDevice).1.log
      = [[0x00, 0x00, 0xff, 0x00, 0xff, 0x00], writeBuffer [0x2a, 0x01],
         writeBuffer [0x06, 0x00], writeBuffer [0x00, 0x01, 0x01, 0x0f, 0x01]]
    ∧ readsOf (main (failAtTransport 5) freshDevice).1.log
      = [[2, 0, 0, 0, 0, 2, 0, 0], [4, 0, 0, 0, 0, 4, 0, 0]] :=
  main_stops_at_failure (failAtTransport 5) freshDevice
    ⟨64, 5,
      [Event.write [0x00, 0x00, 0xff, 0x00, 0xff, 0x00],
       Event.write (writeBuffer [0x2a, 0x01]), Event.read [2, 0, 0, 0, 0, 2, 0, 0],
       Event.write (writeBuffer [0x06, 0x00]), Event.read [4, 0, 0, 0, 0, 4, 0, 0]]⟩
    ⟨64, 6,
      [Event.write [0x00, 0x00, 0xff, 0x00, 0xff, 0x00],
       Event.write (writeBuffer [0x2a, 0x01]), Event.read [2, 0, 0, 0, 0, 2, 0, 0],
       Event.write (writeBuffer [0x06, 0x00]), Event.read [4, 0, 0, 0, 0, 4, 0, 0],
       Event.write (writeBuffer [0x00, 0x01, 0x01, 0x0f, 0x01])]⟩
    3 (fun d => Device.PacketInsetRF (failAtTransport 5) d runeF) (Error.transport 9)
    rfl rfl rfl

/-- C12: `PacketInit` hands exactly the six bytes `00 00 FF 00 FF 00` to the transport in
one write, performs no transport read, and returns the error of that write as it is: it
succeeds exactly when the write succeeds. -/
theorem packet_init_frame {σ ε : Type} (T : Transport σ ε) (d : Device σ) :
    (Device.PacketInit T d).1.log
      = d.log ++ [Event.write [0x00, 0x00, 0xff, 0x00, 0xff, 0x00]]
    ∧ readsOf (Device.PacketInit T d).1.log = readsOf d.log
    ∧ (Device.PacketInit T d).2
      = (T.outWrite d.st [0x00, 0x00, 0xff, 0x00, 0xff, 0x00]).2.2.map Error.transport
    ∧ ((Device.PacketInit T d).2 = none
        ↔ (T.outWrite d.st [0x00, 0x00, 0xff, 0x00, 0xff, 0x00]).2.2 = none) := by
  refine ⟨rfl, ?_, rfl, ?_⟩
  · simp only [Device.PacketInit, Device.outWrite, readsOf_append, readsOf,
      List.append_nil]
  · simp only [Device.PacketInit, Device.outWrite, Option.map_eq_none']

/-- C13: for every byte sequence `b`, the checksum of `b` followed by its own checksum
is 0. -/
theorem checksum_append_checksum (b : List Nat) :
    checksum (b ++ [checksum b]) = 0 := by
  have h := checksum_eq b
  rw [checksum_eq, List.sum_append, List.sum_singleton, h]
  omega

/-- C14: encoding is deterministic and stateless. For every payload `p`, any two
transports and any two devices, whatever their states and logs, the frame `Device.Write`
hands to the transport for `p` is the same, and it is the same again when `p` is written
a second time on the device the first `Write` left. -/
theorem write_frame_stateless {σ1 ε1 σ2 ε2 : Type} (T1 : Transport σ1 ε1)
    (T2 : Transport σ2 ε2) (d1 : Device σ1) (d2 : Device σ2) (p : List Nat) :
    writesOf ((Device.Write T1 d1 p).1.log.drop d1.log.length)
      = writesOf ((Device.Write T2 d2 p).1.log.drop d2.log.length)
    ∧ writesOf ((Device.Write T1 (Device.Write T1 d1 p).1 p).1.log.drop
          (Device.Write T1 d1 p).1.log.length)
      = writesOf ((Device.Write T1 d1 p).1.log.drop d1.log.length)
    ∧ writesOf ((Device.Write T1 d1 p).1.log.drop d1.log.length) = [writeBuffer p] := by
  simp only [Write_new_writes, and_self]

/-- C15: for every card type `t` among `'A'`, `'B'`, `'F'`, on a transport whose calls
succeed, `PacketInsetRF t`, `PacketInsetProtocol2 t` and `PacketSenseRequest t` each add
to the log exactly one write followed by exactly one read, and the frame written is the
encoding of the entry of `t` in `insetRFMap`, `insetProtocol2Map` and `requestMap`
respectively. `PacketSetCommandType`, `PacketSwitchRF` and `PacketInsetProtocol1`, which
take no card type, do the same with their fixed payloads. All six return `nil`. -/
theorem packet_ops_write_then_read {σ ε : Type} (T : Transport σ ε)
    (hW : ∀ s bs, (T.outWrite s bs).2.2 = none) (hR : ∀ s k, (T.inRead s k).2.2 = none)
    (d : Device σ) (t : Rune) (ht : t = runeA ∨ t = runeB ∨ t = runeF) :
    (∃ c r, insetRFMap.get t = some c
      ∧ (Device.PacketInsetRF T d t).1.log
          = d.log ++ [Event.write (writeBuffer c), Event.read r]
      ∧ (Device.PacketInsetRF T d t).2 = none)
    ∧ (∃ c r, insetProtocol2Map.get t = some c
      ∧ (Device.PacketInsetProtocol2 T d t).1.log
          = d.log ++ [Event.write (writeBuffer c), Event.read r]
      ∧ (Device.PacketInsetProtocol2 T d t).2 = none)
    ∧ (∃ c r, requestMap.get t = some c
      ∧ (Device.PacketSenseRequest T d t).1.log
          = d.log ++ [Event.write (writeBuffer c), Event.read r]
      ∧ (Device.PacketSenseRequest T d t).2 = none)
    ∧ (∃ r, (Device.PacketSetCommandType T d).1.log
          = d.log ++ [Event.write (writeBuffer [0x2a, 0x01]), Event.read r]
      ∧ (Device.PacketSetCommandType T d).2 = none)
    ∧ (∃ r, (Device.PacketSwitchRF T d).1.log
          = d.log ++ [Event.write (writeBuffer [0x06, 0x00]), Event.read r]
      ∧ (Device.PacketSwitchRF T d).2 = none)
    ∧ (∃ r, (Device.PacketInsetProtocol1 T d).1.log
          = d.log ++ [Event.write (writeBuffer protocol1Cmd), Event.read r]
      ∧ (Device.PacketInsetProtocol1 T d).2 = none) := by
  have hcat : ∃ c1 c2 c3, insetRFMap.get t = some c1 ∧ insetProtocol2Map.get t = some c2
      ∧ requestMap.get t = some c3 := by
    rcases ht with h | h | h <;> subst h <;> exact ⟨_, _, _, rfl, rfl, rfl⟩
  obtain ⟨c1, c2, c3, h1, h2, h3⟩ := hcat
  refine ⟨?_, ?_, ?_, Write_ok T hW hR d _, Write_ok T hW hR d _, Write_ok T hW hR d _⟩
  · obtain ⟨r, hr⟩ := Write_ok T hW hR d c1
    refine ⟨c1, r, h1, ?_⟩
    simp only [Device.PacketInsetRF, h1]
    exact hr
  · obtain ⟨r, hr⟩ := Write_ok T hW hR d c2
    refine ⟨c2, r, h2, ?_⟩
    simp only [Device.PacketInsetProtocol2, h2]
    exact hr
  · obtain ⟨r, hr⟩ := Write_ok T hW hR d c3
    refine ⟨c3, r, h3, ?_⟩
    simp only [Device.PacketSenseRequest, h3]
    exact hr

/-- Witness of C15 at card type `'A'` on a fresh device over the sample transport. -/
theorem packet_ops_write_then_read_witness :
    (∀ s bs, (okTransport.outWrite s bs).2.2 = none)
    ∧ (∀ s k, (okTransport.inRead s k).2.2 = none)
    ∧ (runeA = runeA ∨ runeA = runeB ∨ runeA = runeF)
    ∧ (Device.PacketInsetRF okTransport freshDevice runeA).1.log
      = [Event.write (writeBuffer [0x00, 0x02, 0x03, 0x0f, 0x03]),
         Event.read [1, 0, 0, 0, 0, 1, 0, 0]]
    ∧ (∃ c r, requestMap.get runeA = some c
      ∧ (Device.PacketSenseRequest okTransport freshDevice runeA).1.log
          = freshDevice.log ++ [Event.write (writeBuffer c), Event.read r]
      ∧ (Device.PacketSenseRequest okTransport freshDevice runeA).2 = none) :=
  ⟨fun _ _ => rfl, fun _ _ => rfl, Or.inl rfl, by decide,
    (packet_ops_write_then_read okTransport (fun _ _ => rfl) (fun _ _ => rfl) freshDevice
      runeA (Or.inl rfl)).2.2.1⟩

/-- C16: in the frame written by `Device.Write`, for every payload of any length, the
three bytes at offsets 5-7 (length field and length checksum) sum to 0 modulo 256, and the
bytes from offset 8 up to and including the body checksum, the second-to-last byte, sum to
0 modulo 256. -/
theorem frame_checksums_zero {σ ε : Type} (T : Transport σ ε) (d : Device σ) (p : List Nat) :
    writesOf ((Device.Write T d p).1.log.drop d.log.length) = [writeBuffer p]
    ∧ ((writeBuffer p).getD 5 0 + (writeBuffer p).getD 6 0 + (writeBuffer p).getD 7 0) % 256
        = 0
    ∧ (((writeBuffer p).drop 8).dropLast).sum % 256 = 0 := by
  refine ⟨Write_new_writes T d p, ?_, ?_⟩
  · rw [writeBuffer_split]
    simp only [List.cons_append, List.getD_cons_succ, List.getD_cons_zero, checksum_eq,
      List.sum_cons, List.sum_nil]
    omega
  · rw [writeBuffer_split]
    simp only [List.cons_append, List.nil_append, List.drop_succ_cons, List.drop_zero]
    rw [← List.cons_append, ← List.cons_append, List.dropLast_concat, List.sum_append,
      List.sum_singleton]
    exact (sum_add_checksum_mod (0xd6 :: p))

/-- C17: for every payload `p`, the frame written by `Device.Write` has length
`len(p) + 11` and its bytes from offset 9 up to, and excluding, the last two bytes are
exactly `p`; hence the encoding is injective: two different payloads never give the same
frame. -/
theorem frame_length_payload_injective {σ ε : Type} (T : Transport σ ε) (d : Device σ)
    (p : List Nat) :
    writesOf ((Device.Write T d p).1.log.drop d.log.length) = [writeBuffer p]
    ∧ (writeBuffer p).length = p.length + 11
    ∧ ((writeBuffer p).drop 9).take ((writeBuffer p).length - 2 - 9) = p
    ∧ Function.Injective writeBuffer := by
  refine ⟨Write_new_writes T d p, writeBuffer_length p, ?_, ?_⟩
  · rw [Nat.sub_sub]
    exact writeBuffer_extract p
  · intro a b hab
    rw [← writeBuffer_extract a, ← writeBuffer_extract b, hab]

end Rcs380
